import Mathlib

/-!
Shallow embedding of `mistralrs-server/src/chat_completion.rs`: the chat-completion
HTTP bridge between the OpenAI-style API and the inference engine.  Side effects
(logging hooks, channel reads, panics) are made explicit: each embedded operation
returns its result together with the list of logging-hook invocations it performs,
and fatal `unreachable!()` branches are an explicit `panicked` outcome.
-/

/-- Modelled from the spec: the engine's aggregated result object
(`mistralrs_core::ChatCompletionResponse`), owned by the engine and passed
through unchanged by the bridge; treated here as an uninterpreted payload. -/
structure ChatCompletionResponse where
  payload : String
deriving DecidableEq, Repr

/-- Modelled from the spec: the sibling completion-endpoint result object
(`mistralrs_core::CompletionResponse`), never legitimately seen on a chat
channel; treated here as an uninterpreted payload. -/
structure CompletionResponse where
  payload : String
deriving DecidableEq, Repr

/-- Modelled from the spec: one choice of a streamed chunk, carrying a content
delta and an optional finish reason (glossary: "per-choice content deltas and
optionally a finish reason"). -/
structure ChunkChoice where
  delta : String
  finish_reason : Option String
deriving DecidableEq, Repr

/-- Modelled from the spec: a partial, incremental result for an in-progress
generation (`mistralrs_core::ChatCompletionChunkResponse`); only its `choices`
list is inspected by the bridge. -/
structure ChatCompletionChunkResponse where
  choices : List ChunkChoice
deriving DecidableEq, Repr

/-- The tagged union carried by the per-request response channel
(`mistralrs_core::Response`).  Boxed error values are embedded as their
`to_string()` rendering, which is all the bridge ever uses of them. -/
inductive Response
  | Chunk (response : ChatCompletionChunkResponse)
  | Done (response : ChatCompletionResponse)
  | ModelError (msg : String) (response : ChatCompletionResponse)
  | ValidationError (e : String)
  | InternalError (e : String)
  | CompletionDone (response : CompletionResponse)
  | CompletionModelError (msg : String) (response : CompletionResponse)
deriving DecidableEq, Repr

/-- One invocation of a logging hook (`MistralRs::maybe_log_error`,
`maybe_log_response` on a chunk, `maybe_log_response` on a full result,
`maybe_log_request`), recorded as an effect-trace element. -/
inductive LogCall
  | logError (msg : String)
  | logChunk (response : ChatCompletionChunkResponse)
  | logResponse (response : ChatCompletionResponse)
  | logRequest (repr : String)
deriving DecidableEq, Repr

/-- A wire event on the SSE stream: `Event::default().data(s)` for plain text,
`Event::default().json_data(c)` for a JSON-serialized chunk. -/
inductive Event
  | data (s : String)
  | json (response : ChatCompletionChunkResponse)
deriving DecidableEq, Repr

/-- The outcome of one `poll_next` call: `Poll::Pending`, `Poll::Ready(None)`
(end of sequence), `Poll::Ready(Some(event))`, or a hit `unreachable!()`. -/
inductive PollOut
  | pending
  | endOfSequence
  | event (e : Event)
  | panicked
deriving DecidableEq, Repr

/-- The full effect of one `poll_next` call: the updated `is_done` flag of the
`Streamer`, the poll outcome, and the logging-hook calls made. -/
structure PollStep where
  is_done : Bool
  out : PollOut
  logs : List LogCall
deriving DecidableEq, Repr

/-- Embeds `Streamer::poll_next` (chat_completion.rs lines 46-79).  `is_done` is
the streamer's state field on entry; `recv` is the result of `rx.try_recv()`
(`none` meaning the non-blocking read found no message). -/
def poll_next (is_done : Bool) (recv : Option Response) : PollStep :=
  if is_done then
    { is_done := is_done, out := .endOfSequence, logs := [] }
  else
    match recv with
    | some resp =>
      match resp with
      | .ModelError msg _ =>
          { is_done := is_done, out := .event (.data msg), logs := [.logError msg] }
      | .ValidationError e =>
          { is_done := is_done, out := .event (.data e), logs := [] }
      | .InternalError e =>
          { is_done := is_done, out := .event (.data e), logs := [.logError e] }
      | .Chunk response =>
          let allFinished := response.choices.all fun x => x.finish_reason.isSome
          { is_done := if allFinished then true else is_done,
            out := .event (.json response),
            logs := [.logChunk response] }
      | .Done _ => { is_done := is_done, out := .panicked, logs := [] }
      | .CompletionDone _ => { is_done := is_done, out := .panicked, logs := [] }
      | .CompletionModelError _ _ => { is_done := is_done, out := .panicked, logs := [] }
    | none => { is_done := is_done, out := .pending, logs := [] }

/-- The observable trace of driving a `Streamer` over a sequence of channel
messages: the wire events emitted, the logging calls made, whether an
`unreachable!()` was hit, and the final `is_done` state. -/
structure StreamRun where
  events : List Event
  logs : List LogCall
  panicked : Bool
  finalDone : Bool
deriving DecidableEq, Repr

/-- Runs the streamer state machine over a list of messages queued on the
channel, polling once per available message.  When `is_done` is set the
streamer returns end-of-sequence without reading, so the remaining messages
stay unread; a hit `unreachable!()` aborts the run. -/
def runStreamer (done : Bool) : List Response → StreamRun
  | [] => { events := [], logs := [], panicked := false, finalDone := done }
  | r :: rest =>
    if done then
      { events := [], logs := [], panicked := false, finalDone := done }
    else
      let step := poll_next done (some r)
      match step.out with
      | .panicked => { events := [], logs := step.logs, panicked := true, finalDone := step.is_done }
      | .event e =>
          let t := runStreamer step.is_done rest
          { events := e :: t.events, logs := step.logs ++ t.logs,
            panicked := t.panicked, finalDone := t.finalDone }
      | .pending =>
          let t := runStreamer step.is_done rest
          { events := t.events, logs := step.logs ++ t.logs,
            panicked := t.panicked, finalDone := t.finalDone }
      | .endOfSequence =>
          let t := runStreamer step.is_done rest
          { events := t.events, logs := step.logs ++ t.logs,
            panicked := t.panicked, finalDone := t.finalDone }

/-- The prefix of a list up to and including the first element satisfying `p`
(the whole list when no element does). -/
def takeUntilIncl (p : α → Bool) : List α → List α
  | [] => []
  | x :: xs => if p x then [x] else x :: takeUntilIncl p xs

/-- The `ChatCompletionResponder` outcome enum of chat_completion.rs (lines
82-88).  The `Sse` variant records the initial `is_done` state of the
`Streamer` it wraps; boxed errors are embedded as their message strings. -/
inductive ChatCompletionResponder
  | Sse (streamerDone : Bool)
  | Json (response : ChatCompletionResponse)
  | ModelError (msg : String) (response : ChatCompletionResponse)
  | InternalError (e : String)
  | ValidationError (e : String)
deriving DecidableEq, Repr

/-- The shape of an HTTP response body produced by
`ChatCompletionResponder::into_response`: the result object, a
`JsonError {message}` body, a `JsonModelError {message, partial_response}`
body, or the SSE event stream. -/
inductive HttpBody
  | jsonResult (response : ChatCompletionResponse)
  | jsonError (message : String)
  | jsonModelError (message : String) (partResponse : ChatCompletionResponse)
  | eventStream
deriving DecidableEq, Repr

/-- Embeds `ChatCompletionResponder::into_response` (chat_completion.rs lines
127-144) as the pair (HTTP status code, body shape). -/
def into_response : ChatCompletionResponder → Nat × HttpBody
  | .Sse _ => (200, .eventStream)
  | .Json s => (200, .jsonResult s)
  | .InternalError e => (500, .jsonError e)
  | .ValidationError e => (422, .jsonError e)
  | .ModelError msg response => (500, .jsonModelError msg response)

/-- Outcome of handler code that may hit an `unreachable!()`. -/
inductive HandlerOut
  | responder (r : ChatCompletionResponder)
  | panicked
deriving DecidableEq, Repr

/-- Result and effect trace of the non-streaming aggregation match. -/
structure AggResult where
  out : HandlerOut
  logs : List LogCall
deriving DecidableEq, Repr

/-- Embeds the non-streaming branch of `chatcompletions` (chat_completion.rs
lines 252-279): one blocking `rx.recv().await`, whose result is `received`
(`none` meaning the channel closed with no message delivered), classified into
a `ChatCompletionResponder`. -/
def aggregateResponse (received : Option Response) : AggResult :=
  match received with
  | none =>
      { out := .responder (.InternalError "No response received from the model."),
        logs := [.logError "No response received from the model."] }
  | some response =>
    match response with
    | .InternalError e =>
        { out := .responder (.InternalError e), logs := [.logError e] }
    | .ModelError msg resp =>
        { out := .responder (.ModelError msg resp),
          logs := [.logError msg, .logResponse resp] }
    | .ValidationError e =>
        { out := .responder (.ValidationError e), logs := [] }
    | .Done resp =>
        { out := .responder (.Json resp), logs := [.logResponse resp] }
    | .Chunk _ => { out := .panicked, logs := [] }
    | .CompletionDone _ => { out := .panicked, logs := [] }
    | .CompletionModelError _ _ => { out := .panicked, logs := [] }

/-- Modelled from the spec: the external `stop` field, a single string or a
list of strings (`crate::openai::StopTokens`). -/
inductive StopTokens
  | Multi (m : List String)
  | Single (s : String)
deriving DecidableEq, Repr

/-- Modelled from the spec: the internal stop-token representation
(`mistralrs_core::StopTokens`); the translator only ever builds the
sequence-list form. -/
inductive InternalStopTokens
  | Seqs (s : List String)
deriving DecidableEq, Repr

/-- Modelled from the spec: the external grammar field, a regular-expression
or parser-generator (yacc) grammar, mutually exclusive by construction
(`crate::openai::Grammar`). -/
inductive Grammar
  | Regex (regex : String)
  | Yacc (yacc : String)
deriving DecidableEq, Repr

/-- The internal resolved constraint (`mistralrs_core::Constraint`). -/
inductive Constraint
  | Regex (regex : String)
  | Yacc (yacc : String)
  | None
deriving DecidableEq, Repr

/-- Modelled from the spec: one role/content message pair of the external
request. -/
structure Message where
  role : String
  content : String
deriving DecidableEq, Repr

/-- Modelled from the spec: the external chat request
(`crate::openai::ChatCompletionRequest`): a message list or a raw prompt,
sampling controls, optional constraint grammar, adapters and stream flag.
Floating-point sampling fields are embedded as exact rationals; they are
pure pass-through values. -/
structure ChatCompletionRequest where
  messages : Sum (List Message) String
  temperature : Option Rat
  top_k : Option Nat
  top_p : Option Rat
  top_logprobs : Option Nat
  logprobs : Bool
  frequency_penalty : Option Rat
  presence_penalty : Option Rat
  max_tokens : Option Nat
  stop_seqs : Option StopTokens
  logit_bias : Option (List (Nat × Rat))
  n_choices : Nat
  grammar : Option Grammar
  adapters : Option (List String)
  stream : Option Bool
deriving DecidableEq, Repr

/-- The normalized message payload built by the translator
(`mistralrs_core::RequestMessage::Chat`); each turn's `IndexMap` is embedded
as an insertion-ordered association list. -/
inductive RequestMessage
  | Chat (messages : List (List (String × String)))
deriving DecidableEq, Repr

/-- The internal sampling parameters (`mistralrs_core::SamplingParams`) as
filled in by `parse_request`. -/
structure SamplingParams where
  temperature : Option Rat
  top_k : Option Nat
  top_p : Option Rat
  top_n_logprobs : Nat
  frequency_penalty : Option Rat
  presence_penalty : Option Rat
  max_len : Option Nat
  stop_toks : Option InternalStopTokens
  logits_bias : Option (List (Nat × Rat))
  n_choices : Nat
deriving DecidableEq, Repr

/-- The internal request record (`mistralrs_core::NormalRequest`); the
response-channel sender field is implicit (the channel is modelled separately
as the message list the engine writes). -/
structure NormalRequest where
  id : Nat
  messages : RequestMessage
  sampling_params : SamplingParams
  return_logprobs : Bool
  is_streaming : Bool
  suffix : Option String
  constraint : Constraint
  adapters : Option (List String)
deriving DecidableEq, Repr

/-- The engine request union (`mistralrs_core::Request`); only the `Normal`
variant is built here. -/
inductive Request
  | Normal (req : NormalRequest)
deriving DecidableEq, Repr

/-- Outcome of `parse_request`: the built request plus streaming flag, or the
`expect`-panic on serialization failure. -/
inductive ParseOut
  | ok (request : Request) (is_streaming : Bool)
  | panicked (msg : String)
deriving DecidableEq, Repr

/-- Result and effect trace of `parse_request`. -/
structure ParseResult where
  out : ParseOut
  logs : List LogCall
deriving DecidableEq, Repr

/-- Embeds `parse_request` (chat_completion.rs lines 146-210).  `serialized`
is the outcome of `serde_json::to_string(&oairequest)` (`none` = failure) and
`nextId` the value returned by the shared id allocator
(`state.next_request_id()`). -/
def parse_request (oairequest : ChatCompletionRequest) (serialized : Option String)
    (nextId : Nat) : ParseResult :=
  match serialized with
  | none => { out := .panicked "Serialization of request failed.", logs := [] }
  | some repr =>
    let stop_toks :=
      match oairequest.stop_seqs with
      | some (.Multi m) => some (InternalStopTokens.Seqs m)
      | some (.Single s) => some (InternalStopTokens.Seqs [s])
      | none => none
    let messages :=
      match oairequest.messages with
      | .inl req_messages =>
          RequestMessage.Chat (req_messages.map fun message =>
            [("role", message.role), ("content", message.content)])
      | .inr prompt =>
          RequestMessage.Chat [[("role", "user"), ("content", prompt)]]
    let is_streaming := oairequest.stream.getD false
    { out := .ok (Request.Normal {
        id := nextId
        messages := messages
        sampling_params := {
          temperature := oairequest.temperature
          top_k := oairequest.top_k
          top_p := oairequest.top_p
          top_n_logprobs := oairequest.top_logprobs.getD 1
          frequency_penalty := oairequest.frequency_penalty
          presence_penalty := oairequest.presence_penalty
          max_len := oairequest.max_tokens
          stop_toks := stop_toks
          logits_bias := oairequest.logit_bias
          n_choices := oairequest.n_choices }
        return_logprobs := oairequest.logprobs
        is_streaming := is_streaming
        suffix := none
        constraint :=
          match oairequest.grammar with
          | some (.Yacc yacc) => Constraint.Yacc yacc
          | some (.Regex regex) => Constraint.Regex regex
          | none => Constraint.None
        adapters := oairequest.adapters }) is_streaming
      logs := [.logRequest repr] }

/-- Projects the `NormalRequest` out of a successful `parse_request` result. -/
def ParseResult.request? (pr : ParseResult) : Option NormalRequest :=
  match pr.out with
  | .ok (.Normal nr) _ => some nr
  | _ => none

/-- Result and effect trace of the whole `chatcompletions` handler, with the
number of `rx.recv()` reads performed on the per-request response channel. -/
structure HandlerResult where
  out : HandlerOut
  logs : List LogCall
  reads : Nat
deriving DecidableEq, Repr

/-- Embeds the `chatcompletions` handler (chat_completion.rs lines 219-281).
`sendErr` is the outcome of `sender.send(request).await` (`some e` = the
engine's inbound queue rejected the submission, with `e` the rendered error);
`received` is what the one `rx.recv().await` of the non-streaming path yields.
Channel reads are counted in `reads`. -/
def chatcompletions (oairequest : ChatCompletionRequest) (serialized : Option String)
    (nextId : Nat) (sendErr : Option String) (received : Option Response) : HandlerResult :=
  let pr := parse_request oairequest serialized nextId
  match pr.out with
  | .panicked _ => { out := .panicked, logs := pr.logs, reads := 0 }
  | .ok _ is_streaming =>
    match sendErr with
    | some e =>
        { out := .responder (.InternalError e), logs := pr.logs ++ [.logError e], reads := 0 }
    | none =>
      if is_streaming then
        { out := .responder (.Sse false), logs := pr.logs, reads := 0 }
      else
        let agg := aggregateResponse received
        { out := agg.out, logs := pr.logs ++ agg.logs, reads := 1 }

/-- Tests whether a response message is a `Chunk`. -/
def Response.isChunk : Response → Bool
  | .Chunk _ => true
  | _ => false

/-- Tests whether a response message is one of the terminal chat variants
named by the spec's channel protocol: `Done`, `ModelError` or
`ValidationError`. -/
def Response.isChatTerminal : Response → Bool
  | .Done _ => true
  | .ModelError _ _ => true
  | .ValidationError _ => true
  | _ => false

/-- The chat-channel protocol exactly as the claim states it: zero or more
`Chunk` messages followed by exactly one terminal `Done`/`ModelError`/
`ValidationError`. -/
def chatProtocolLiteral : List Response → Bool
  | [] => false
  | [t] => t.isChatTerminal
  | r :: rest => r.isChunk && chatProtocolLiteral rest

/-- The response variants the streaming match arms handle without hitting an
`unreachable!()`: `Chunk`, `ModelError`, `ValidationError`, `InternalError`. -/
def streamLegal : Response → Bool
  | .Chunk _ => true
  | .ModelError _ _ => true
  | .ValidationError _ => true
  | .InternalError _ => true
  | _ => false

/-- The response variants the non-streaming match arms handle without hitting
an `unreachable!()`: `Done`, `ModelError`, `ValidationError`,
`InternalError`. -/
def aggLegal : Response → Bool
  | .Done _ => true
  | .ModelError _ _ => true
  | .ValidationError _ => true
  | .InternalError _ => true
  | _ => false

/-! Helper lemmas. -/

/-- Once `is_done` is set, every poll returns end-of-sequence and the run
reads nothing, emits nothing and logs nothing. -/
theorem runStreamer_done_eq (msgs : List Response) :
    runStreamer true msgs =
      { events := [], logs := [], panicked := false, finalDone := true } := by
  cases msgs <;> rfl

/-- Driving the streamer over a queue of chunk messages emits exactly the
chunks up to and including the first all-finish-reasoned one. -/
theorem runStreamer_chunks_events (cs : List ChatCompletionChunkResponse) :
    (runStreamer false (cs.map Response.Chunk)).events =
      (takeUntilIncl (fun c => c.choices.all fun x => x.finish_reason.isSome) cs).map
        Event.json := by
  induction cs with
  | nil => rfl
  | cons c rest ih =>
    by_cases hc : (c.choices.all fun x => x.finish_reason.isSome) = true
    · simp [runStreamer, poll_next, takeUntilIncl, hc, runStreamer_done_eq]
    · simp only [Bool.not_eq_true] at hc
      simp [runStreamer, poll_next, takeUntilIncl, hc, ih]

/-- A run over messages the streaming match arms handle never hits an
`unreachable!()`. -/
theorem runStreamer_legal_no_panic (msgs : List Response) :
    ∀ done : Bool, msgs.all streamLegal = true →
      (runStreamer done msgs).panicked = false := by
  induction msgs with
  | nil => intro done _; cases done <;> rfl
  | cons r rest ih =>
    intro done h
    rw [List.all_cons, Bool.and_eq_true] at h
    cases done
    · cases r with
      | Chunk c =>
          by_cases hc : (c.choices.all fun x => x.finish_reason.isSome) = true
          · simp [runStreamer, poll_next, hc, ih true h.2]
          · simp only [Bool.not_eq_true] at hc
            simp [runStreamer, poll_next, hc, ih false h.2]
      | ModelError msg res => simp [runStreamer, poll_next, ih false h.2]
      | ValidationError e => simp [runStreamer, poll_next, ih false h.2]
      | InternalError e => simp [runStreamer, poll_next, ih false h.2]
      | Done res => simp [streamLegal] at h
      | CompletionDone res => simp [streamLegal] at h
      | CompletionModelError msg res => simp [streamLegal] at h
    · rfl

/-! Claim theorems. -/

/-- C1 counterexample: the claim as stated is false on the code.  After
`poll_next` receives `ModelError`, and likewise after `ValidationError`, the
stream state is NOT transitioned to `Done` (`is_done` stays `false`), and a
subsequent poll performs a further channel read: here it still reads and
emits a following chunk instead of signalling end-of-sequence. -/
theorem C1_counterexample :
    (poll_next false (some (.ModelError "boom" ⟨"r"⟩))).is_done = false ∧
    (poll_next false (some (.ValidationError "bad"))).is_done = false ∧
    (poll_next (poll_next false (some (.ModelError "boom" ⟨"r"⟩))).is_done
        (some (.Chunk ⟨[⟨"d", none⟩]⟩))).out = .event (.json ⟨[⟨"d", none⟩]⟩) :=
  ⟨rfl, rfl, rfl⟩

/-- C1 (amended): on the streaming path, after the poll operation receives a
`ModelError(msg, partial)` message it logs the error via the error-logging
hook and emits the message as a wire event, and after a `ValidationError(err)`
it emits the error text as a wire event; but in both cases the stream state
remains Active (`is_done` stays `false`), so subsequent polls continue to
read the channel rather than signalling end-of-sequence. -/
theorem C1_error_events_stream_stays_active (msg err : String)
    (res : ChatCompletionResponse) (c : ChatCompletionChunkResponse) :
    poll_next false (some (.ModelError msg res)) =
      { is_done := false, out := .event (.data msg), logs := [.logError msg] } ∧
    poll_next false (some (.ValidationError err)) =
      { is_done := false, out := .event (.data err), logs := [] } ∧
    (runStreamer false [.ModelError msg res, .Chunk c]).events =
      [.data msg, .json c] :=
  ⟨rfl, rfl, rfl⟩

/-- C2: a received `Chunk` whose choices all carry a finish reason is still
emitted as a wire event and logged, and the stream transitions to `Done` so
that the very next poll signals end-of-sequence; a chunk with at least one
choice lacking a finish reason is emitted without ending the stream; hence a
streamed sequence of chunks emits exactly the chunks up to and including the
first all-finish-reasoned one and nothing after it. -/
theorem C2_chunk_finish_termination :
    (∀ c : ChatCompletionChunkResponse,
      (c.choices.all fun x => x.finish_reason.isSome) = true →
        poll_next false (some (.Chunk c)) =
          { is_done := true, out := .event (.json c), logs := [.logChunk c] }) ∧
    (∀ c : ChatCompletionChunkResponse,
      (c.choices.all fun x => x.finish_reason.isSome) = false →
        poll_next false (some (.Chunk c)) =
          { is_done := false, out := .event (.json c), logs := [.logChunk c] }) ∧
    (∀ recv, poll_next true recv =
      { is_done := true, out := .endOfSequence, logs := [] }) ∧
    (∀ cs : List ChatCompletionChunkResponse,
      (runStreamer false (cs.map Response.Chunk)).events =
        (takeUntilIncl (fun c => c.choices.all fun x => x.finish_reason.isSome) cs).map
          Event.json) := by
  refine ⟨fun c h => ?_, fun c h => ?_, fun recv => rfl, runStreamer_chunks_events⟩
  · simp [poll_next, h]
  · simp [poll_next, h]

/-- C2 witness: the termination behaviour evaluated on concrete one-choice
chunks, one finish-reasoned and one not. -/
theorem C2_chunk_finish_termination_witness :
    poll_next false (some (.Chunk ⟨[⟨"a", some "stop"⟩]⟩)) =
      { is_done := true, out := .event (.json ⟨[⟨"a", some "stop"⟩]⟩),
        logs := [.logChunk ⟨[⟨"a", some "stop"⟩]⟩] } ∧
    poll_next false (some (.Chunk ⟨[⟨"b", none⟩]⟩)) =
      { is_done := false, out := .event (.json ⟨[⟨"b", none⟩]⟩),
        logs := [.logChunk ⟨[⟨"b", none⟩]⟩] } :=
  ⟨C2_chunk_finish_termination.1 _ (by decide),
   C2_chunk_finish_termination.2.1 _ (by decide)⟩

/-- C10: on the streaming path an `InternalError(e)` message is logged via the
error-logging hook and emitted as an ordinary data event, but the stream is
not marked done: it stays Active and keeps polling the channel, here reading
and emitting a following chunk. -/
theorem C10_internal_error_keeps_stream_active (e : String)
    (c : ChatCompletionChunkResponse) :
    poll_next false (some (.InternalError e)) =
      { is_done := false, out := .event (.data e), logs := [.logError e] } ∧
    (runStreamer false [.InternalError e, .Chunk c]).events = [.data e, .json c] :=
  ⟨rfl, rfl⟩

/-- C3: for a non-streaming request (stream evaluates to false), the handler
performs exactly one read of the response channel and maps the received
terminal message per the outcome table: `Done(result)` to status 200 with the
result object as body, `ModelError(msg, partial)` to 500 with a
message-plus-partial-response body, `ValidationError(e)` to 422 with a message
body, `InternalError(e)` to 500 with a message body. -/
theorem C3_non_streaming_outcome_table (oairequest : ChatCompletionRequest)
    (repr : String) (nextId : Nat) (r : Response)
    (h : oairequest.stream.getD false = false) :
    (chatcompletions oairequest (some repr) nextId none (some r)).reads = 1 ∧
    (∀ res, r = .Done res →
      (chatcompletions oairequest (some repr) nextId none (some r)).out =
        .responder (.Json res) ∧
      into_response (.Json res) = (200, .jsonResult res)) ∧
    (∀ msg res, r = .ModelError msg res →
      (chatcompletions oairequest (some repr) nextId none (some r)).out =
        .responder (.ModelError msg res) ∧
      into_response (.ModelError msg res) = (500, .jsonModelError msg res)) ∧
    (∀ e, r = .ValidationError e →
      (chatcompletions oairequest (some repr) nextId none (some r)).out =
        .responder (.ValidationError e) ∧
      into_response (.ValidationError e) = (422, .jsonError e)) ∧
    (∀ e, r = .InternalError e →
      (chatcompletions oairequest (some repr) nextId none (some r)).out =
        .responder (.InternalError e) ∧
      into_response (.InternalError e) = (500, .jsonError e)) := by
  refine ⟨?_, ?_, ?_, ?_, ?_⟩
  · simp [chatcompletions, parse_request, h]
  · intro res hr; subst hr
    exact ⟨by simp [chatcompletions, parse_request, aggregateResponse, h], rfl⟩
  · intro msg res hr; subst hr
    exact ⟨by simp [chatcompletions, parse_request, aggregateResponse, h], rfl⟩
  · intro e hr; subst hr
    exact ⟨by simp [chatcompletions, parse_request, aggregateResponse, h], rfl⟩
  · intro e hr; subst hr
    exact ⟨by simp [chatcompletions, parse_request, aggregateResponse, h], rfl⟩

/-- C3 witness: a concrete non-streaming request whose channel yields
`Done`, evaluated to the 200/result-body outcome. -/
theorem C3_non_streaming_outcome_table_witness :
    (chatcompletions ⟨.inr "hi", none, none, none, none, false, none, none, none,
        none, none, 1, none, none, some false⟩ (some "req") 0 none
          (some (.Done ⟨"ok"⟩))).out = .responder (.Json ⟨"ok"⟩) ∧
    into_response (.Json ⟨"ok"⟩) = (200, .jsonResult ⟨"ok"⟩) :=
  (C3_non_streaming_outcome_table ⟨.inr "hi", none, none, none, none, false, none,
      none, none, none, none, 1, none, none, some false⟩ "req" 0 (.Done ⟨"ok"⟩)
      (by decide)).2.1 ⟨"ok"⟩ rfl

/-- C4 counterexample: under the claim's literal precondition — the channel
carries zero or more `Chunk` messages followed by exactly one terminal
`Done`/`ModelError`/`ValidationError` — the panic branches ARE reachable:
a channel holding just `Done(result)` satisfies the protocol yet the
streaming path hits `unreachable!()` on it, and a protocol-conforming
channel starting with a `Chunk` makes the non-streaming path (which reads
exactly one message) hit `unreachable!()` on that chunk. -/
theorem C4_counterexample :
    chatProtocolLiteral [.Done ⟨"r"⟩] = true ∧
    (runStreamer false [.Done ⟨"r"⟩]).panicked = true ∧
    chatProtocolLiteral [.Chunk ⟨[⟨"d", none⟩]⟩, .Done ⟨"r"⟩] = true ∧
    (aggregateResponse (some (.Chunk ⟨[⟨"d", none⟩]⟩))).out = .panicked :=
  ⟨rfl, rfl, rfl, rfl⟩

/-- C4 (amended): on the streaming path `Done` and the completion-endpoint
variants hit a fatal `unreachable!()`, and on the non-streaming path `Chunk`
and the completion-endpoint variants do likewise; these panic branches are
never reached provided the engine sends, on a streaming chat channel, only
`Chunk`/`ModelError`/`ValidationError`/`InternalError` messages and, as the
one message a non-streaming request consumes, only a terminal
`Done`/`ModelError`/`ValidationError`/`InternalError`. -/
theorem C4_panic_branches_guarded :
    (∀ res, (poll_next false (some (.Done res))).out = .panicked) ∧
    (∀ res, (poll_next false (some (.CompletionDone res))).out = .panicked) ∧
    (∀ msg res,
      (poll_next false (some (.CompletionModelError msg res))).out = .panicked) ∧
    (∀ c, (aggregateResponse (some (.Chunk c))).out = .panicked) ∧
    (∀ res, (aggregateResponse (some (.CompletionDone res))).out = .panicked) ∧
    (∀ msg res,
      (aggregateResponse (some (.CompletionModelError msg res))).out = .panicked) ∧
    (∀ msgs : List Response, msgs.all streamLegal = true →
      (runStreamer false msgs).panicked = false) ∧
    (∀ r : Response, aggLegal r = true →
      (aggregateResponse (some r)).out ≠ .panicked) := by
  refine ⟨fun res => rfl, fun res => rfl, fun msg res => rfl, fun c => rfl,
    fun res => rfl, fun msg res => rfl,
    fun msgs h => runStreamer_legal_no_panic msgs false h, fun r h => ?_⟩
  cases r <;> simp_all [aggLegal, aggregateResponse]

/-- C4 witness: a protocol-conforming streaming run (an unfinished chunk then
a model error) never panics, and a non-streaming `Done` receive does not
panic. -/
theorem C4_panic_branches_guarded_witness :
    (runStreamer false [.Chunk ⟨[⟨"a", none⟩]⟩, .ModelError "err" ⟨"p"⟩]).panicked
        = false ∧
    (aggregateResponse (some (.Done ⟨"ok"⟩))).out ≠ .panicked :=
  ⟨C4_panic_branches_guarded.2.2.2.2.2.2.1 _ (by decide),
   C4_panic_branches_guarded.2.2.2.2.2.2.2 _ (by decide)⟩

/-- C5: on the non-streaming path, when the channel closes with no message
delivered the handler synthesizes the internal error "No response received
from the model.", logs it via the error-logging hook, and returns it as an
InternalError outcome mapping to HTTP 500, having performed only the single
read that observed the closure. -/
theorem C5_channel_closed_no_message (oairequest : ChatCompletionRequest)
    (repr : String) (nextId : Nat) (h : oairequest.stream.getD false = false) :
    chatcompletions oairequest (some repr) nextId none none =
      { out := .responder (.InternalError "No response received from the model."),
        logs := [.logRequest repr,
                 .logError "No response received from the model."], reads := 1 } ∧
    into_response (.InternalError "No response received from the model.") =
      (500, .jsonError "No response received from the model.") := by
  exact ⟨by simp [chatcompletions, parse_request, aggregateResponse, h], rfl⟩

/-- C5 witness: the closed-channel outcome evaluated on a concrete
non-streaming request. -/
theorem C5_channel_closed_no_message_witness :
    chatcompletions ⟨.inr "hi", none, none, none, none, false, none, none, none,
        none, none, 1, none, none, some false⟩ (some "req") 0 none none =
      { out := .responder (.InternalError "No response received from the model."),
        logs := [.logRequest "req",
                 .logError "No response received from the model."], reads := 1 } :=
  (C5_channel_closed_no_message ⟨.inr "hi", none, none, none, none, false, none,
      none, none, none, none, 1, none, none, some false⟩ "req" 0 (by decide)).1

/-- C6: when submitting the translated request to the engine's inbound queue
fails, the handler logs the error and returns an InternalError outcome
mapping to HTTP 500, with zero reads of the per-request response channel. -/
theorem C6_submission_failure (oairequest : ChatCompletionRequest) (repr : String)
    (nextId : Nat) (e : String) (received : Option Response) :
    chatcompletions oairequest (some repr) nextId (some e) received =
      { out := .responder (.InternalError e),
        logs := [.logRequest repr, .logError e], reads := 0 } ∧
    into_response (.InternalError e) = (500, .jsonError e) :=
  ⟨rfl, rfl⟩

/-- C7: stop-sequence normalization in `parse_request`: a single-string stop
value becomes a one-element stop-sequence list holding that string, a list
stop value is passed through unchanged, and an absent stop value yields no
stop-token constraint. -/
theorem C7_stop_sequence_normalization (oairequest : ChatCompletionRequest)
    (repr : String) (nextId : Nat) :
    (∀ s, oairequest.stop_seqs = some (.Single s) →
      ∃ nr, (parse_request oairequest (some repr) nextId).request? = some nr ∧
        nr.sampling_params.stop_toks = some (.Seqs [s])) ∧
    (∀ m, oairequest.stop_seqs = some (.Multi m) →
      ∃ nr, (parse_request oairequest (some repr) nextId).request? = some nr ∧
        nr.sampling_params.stop_toks = some (.Seqs m)) ∧
    (oairequest.stop_seqs = none →
      ∃ nr, (parse_request oairequest (some repr) nextId).request? = some nr ∧
        nr.sampling_params.stop_toks = none) := by
  refine ⟨fun s h => ⟨_, rfl, ?_⟩, fun m h => ⟨_, rfl, ?_⟩, fun h => ⟨_, rfl, ?_⟩⟩ <;>
    simp [parse_request, ParseResult.request?, h]

/-- C7 witness: the three stop-value shapes evaluated on concrete requests. -/
theorem C7_stop_sequence_normalization_witness :
    (∃ nr, (parse_request ⟨.inr "hi", none, none, none, none, false, none, none,
        none, some (.Single "halt"), none, 1, none, none, none⟩
          (some "req") 0).request? = some nr ∧
      nr.sampling_params.stop_toks = some (.Seqs ["halt"])) ∧
    (∃ nr, (parse_request ⟨.inr "hi", none, none, none, none, false, none, none,
        none, some (.Multi ["a", "b"]), none, 1, none, none, none⟩
          (some "req") 0).request? = some nr ∧
      nr.sampling_params.stop_toks = some (.Seqs ["a", "b"])) ∧
    (∃ nr, (parse_request ⟨.inr "hi", none, none, none, none, false, none, none,
        none, none, none, 1, none, none, none⟩ (some "req") 0).request? = some nr ∧
      nr.sampling_params.stop_toks = none) :=
  ⟨(C7_stop_sequence_normalization ⟨.inr "hi", none, none, none, none, false, none,
      none, none, some (.Single "halt"), none, 1, none, none, none⟩ "req" 0).1
      "halt" rfl,
   (C7_stop_sequence_normalization ⟨.inr "hi", none, none, none, none, false, none,
      none, none, some (.Multi ["a", "b"]), none, 1, none, none, none⟩ "req" 0).2.1
      ["a", "b"] rfl,
   (C7_stop_sequence_normalization ⟨.inr "hi", none, none, none, none, false, none,
      none, none, none, none, 1, none, none, none⟩ "req" 0).2.2 rfl⟩

/-- C8: constraint resolution in `parse_request`: a regex grammar maps to the
`Regex` constraint and never the parser-generator constraint, a yacc grammar
maps to the `Yacc` constraint and never the regex constraint, and an absent
grammar maps to the `None` constraint. -/
theorem C8_constraint_resolution (oairequest : ChatCompletionRequest)
    (repr : String) (nextId : Nat) :
    (∀ regex, oairequest.grammar = some (.Regex regex) →
      ∃ nr, (parse_request oairequest (some repr) nextId).request? = some nr ∧
        nr.constraint = Constraint.Regex regex ∧
        ∀ y, nr.constraint ≠ Constraint.Yacc y) ∧
    (∀ yacc, oairequest.grammar = some (.Yacc yacc) →
      ∃ nr, (parse_request oairequest (some repr) nextId).request? = some nr ∧
        nr.constraint = Constraint.Yacc yacc ∧
        ∀ s, nr.constraint ≠ Constraint.Regex s) ∧
    (oairequest.grammar = none →
      ∃ nr, (parse_request oairequest (some repr) nextId).request? = some nr ∧
        nr.constraint = Constraint.None) := by
  refine ⟨fun regex h => ⟨_, rfl, ?_, ?_⟩, fun yacc h => ⟨_, rfl, ?_, ?_⟩,
      fun h => ⟨_, rfl, ?_⟩⟩ <;>
    simp [parse_request, ParseResult.request?, h]

/-- C8 witness: the three grammar shapes evaluated on concrete requests. -/
theorem C8_constraint_resolution_witness :
    (∃ nr, (parse_request ⟨.inr "hi", none, none, none, none, false, none, none,
        none, none, none, 1, some (.Regex "a+"), none, none⟩
          (some "req") 0).request? = some nr ∧
      nr.constraint = Constraint.Regex "a+" ∧
      ∀ y, nr.constraint ≠ Constraint.Yacc y) ∧
    (∃ nr, (parse_request ⟨.inr "hi", none, none, none, none, false, none, none,
        none, none, none, 1, some (.Yacc "g"), none, none⟩
          (some "req") 0).request? = some nr ∧
      nr.constraint = Constraint.Yacc "g" ∧
      ∀ s, nr.constraint ≠ Constraint.Regex s) ∧
    (∃ nr, (parse_request ⟨.inr "hi", none, none, none, none, false, none, none,
        none, none, none, 1, none, none, none⟩ (some "req") 0).request? = some nr ∧
      nr.constraint = Constraint.None) :=
  ⟨(C8_constraint_resolution ⟨.inr "hi", none, none, none, none, false, none,
      none, none, none, none, 1, some (.Regex "a+"), none, none⟩ "req" 0).1
      "a+" rfl,
   (C8_constraint_resolution ⟨.inr "hi", none, none, none, none, false, none,
      none, none, none, none, 1, some (.Yacc "g"), none, none⟩ "req" 0).2.1
      "g" rfl,
   (C8_constraint_resolution ⟨.inr "hi", none, none, none, none, false, none,
      none, none, none, none, 1, none, none, none⟩ "req" 0).2.2 rfl⟩

/-- C9: if serializing the original request for the request-logging side
effect fails, `parse_request` aborts fatally with the message "Serialization
of request failed." and no request is constructed (the whole handler
panicks); when serialization succeeds, the serialized request is the sole
logging call of `parse_request` — it is handed to the request-logging hook —
and request construction succeeds. -/
theorem C9_request_serialization (oairequest : ChatCompletionRequest)
    (nextId : Nat) :
    parse_request oairequest none nextId =
      { out := .panicked "Serialization of request failed.", logs := [] } ∧
    (chatcompletions oairequest none nextId none none).out = .panicked ∧
    ∀ repr, (parse_request oairequest (some repr) nextId).logs = [.logRequest repr] ∧
      ∃ request is_streaming,
        (parse_request oairequest (some repr) nextId).out = .ok request is_streaming :=
  ⟨rfl, rfl, fun repr => ⟨rfl, ⟨_, _, rfl⟩⟩⟩
